import Mathlib

/-
  Verification development for the TactiMesh tactical mesh node
  (src/tactimesh.py).  The data model, store, envelope codec, runtime
  queue and situational engine are shallow-embedded below; machine
  details that do not affect the verified claims (JSON parsing being
  the inverse of serialization, the exact byte content of Ed25519
  signatures) are modelled symbolically and documented at each
  definition.
-/

/-! ## Data model (tactimesh.py, dataclasses at lines 121-173) -/

/-- The `NodeIdentity` dataclass.  `created` and other times are modelled as
integers; key strings are opaque text exactly as in the source. -/
structure NodeIdentity where
  node_id : String
  callsign : String
  unit : String
  rank : String
  role : String
  clearance_level : Int
  pubkey : String
  verify_key : String
  created : Int
deriving Repr, DecidableEq

/-- The `Position` dataclass.  Coordinates are rationals (the claims never
depend on binary floating point rounding); `timestamp` is an integer. -/
structure Position where
  node_id : String
  lat : Rat
  lon : Rat
  alt : Rat
  accuracy : Rat
  speed : Rat
  course : Rat
  timestamp : Int
  mgrs : String
deriving Repr, DecidableEq

/-- A detached Ed25519 signature, modelled symbolically: the scheme is
deterministic, so a signature is characterised by the signing key and
the exact bytes signed.  `verify` below accepts exactly the signatures
this constructor can produce, which models EUF-CMA security. -/
structure SigTok where
  signerKey : String
  signedData : String
deriving Repr, DecidableEq

/-- Payload of a tactical message (`Dict[str, Any]` in the source).  The
runtime only ever inspects it as a `Position` (blue_force topic) or
treats it opaquely; both shapes are covered. -/
inductive PayloadData where
  | positionPayload (p : Position)
  | textPayload (s : String)
deriving Repr, DecidableEq

/-- Model of `Position(**payload)` in `_process_received_message`: succeeds only
when the payload dictionary has exactly the `Position` fields. -/
def Position.ofPayload : PayloadData → Option Position
  | .positionPayload p => some p
  | .textPayload _ => none

/-- The `TacticalMessage` dataclass, field order as in the source (the order
matters for the canonical serialization; `signature` is last). -/
structure TacticalMessage where
  msg_id : String
  msg_type : String
  topic : String
  sender : String
  recipients : List String
  classification : String
  priority : Nat
  timestamp : Int
  expires : Option Int
  payload : PayloadData
  attachments : List String
  signature : Option SigTok
deriving Repr, DecidableEq

/-- The `GeofenceZone` dataclass.  The WKT polygon string is modelled by the
ring of vertices it denotes (the source parses it with `shapely.wkt`). -/
structure GeofenceZone where
  zone_id : String
  name : String
  zone_type : String
  polygon : List (Rat × Rat)
  classification : String
  created_by : String
  created : Int
  active : Bool
deriving Repr, DecidableEq

/-! ## Crypto module (`MilitaryCrypto`, lines 179-259) -/

/-- Public verify key derived from a signing key (symbolic model of the
Ed25519 key derivation; it is injective, as the real derivation is). -/
def verifyKeyOf (signingKey : String) : String := "vk:" ++ signingKey

/-- Model of `MilitaryCrypto.sign_message` (line 219): deterministic signature
over the exact input bytes. -/
def sign_message (signingKey : String) (data : String) : SigTok :=
  ⟨signingKey, data⟩

/-- The `VerifyKey.verify` success condition (symbolic): the signature was
produced, with the signing key matching this verify key, over exactly
these bytes. -/
def ed25519Verify (data : String) (sig : SigTok) (verifyKey : String) : Bool :=
  verifyKey == verifyKeyOf sig.signerKey && sig.signedData == data

/-! ### `verify_signature` over textual input (lines 229-237)

`MilitaryCrypto.verify_signature` receives the signature and the public
key as base64 text and may hit exceptions at three points: decoding the
key, constructing `VerifyKey` (wrong length), and `verify` itself
(`BadSignatureError`).  The `except` clause catches every `Exception`
and returns `False`.  The body is embedded as an `Except` computation
(each raise point an `error`) and the function as the try/except
wrapper around it. -/

/-- Characters of the base64 alphabet proper (Python discards everything
else before decoding when `validate=False`, the default). -/
def isB64Char (c : Char) : Bool :=
  c.isAlpha || c.isDigit || c == '+' || c == '/'

/-- Model of `base64.b64decode` (default `validate=False`): non-alphabet bytes are
discarded; an invalid count of data characters raises `binascii.Error`.
The decoded bytes are modelled by the surviving data characters. -/
def b64decode (s : String) : Except String (List Char) :=
  let core := s.toList.filter isB64Char
  if core.length % 4 == 1 then .error "binascii.Error: invalid base64 length"
  else .ok core

/-- Number of decoded bytes for a run of base64 data characters. -/
def decodedLen (chars : List Char) : Nat := chars.length * 3 / 4

/-- Symbolic raw signature bytes for a (key bytes, data) pair, used by
the byte-level verify model below. -/
def rawSigOf (keyBytes : List Char) (data : String) : List Char :=
  keyBytes ++ '|' :: data.toList

/-- The `try` block of `verify_signature`: each statement that can raise
is an `Except` step — `VerifyKey(base64.b64decode(public_key))` (raises
on malformed base64 and on a key that is not 32 bytes),
`base64.b64decode(signature)`, and `verify_key.verify(...)` (raises
`BadSignatureError` unless the signature is the one over these bytes). -/
def verifySignatureBody (data : String) (signature : String)
    (public_key : String) : Except String Bool := do
  let keyBytes ← b64decode public_key
  if decodedLen keyBytes == 32 then pure () else
    Except.error "ValueError: key must be 32 bytes"
  let sigBytes ← b64decode signature
  if sigBytes == rawSigOf keyBytes data then pure true else
    Except.error "BadSignatureError"

/-- Model of `MilitaryCrypto.verify_signature`: the try/except wrapper — any
exception from the body is caught, logged, and mapped to `False`. -/
def verify_signature (data : String) (signature : String)
    (public_key : String) : Bool :=
  match verifySignatureBody data signature public_key with
  | .ok b => b
  | .error _ => false

/-! ## Store (`TacticalDatabase`, lines 265-407)

Each table is a list of rows; an `INSERT OR REPLACE` on a primary key
deletes any conflicting row and inserts the new one (columns absent
from the insert list receive their declared defaults, so `status`
becomes `ACTIVE` again and `delivered`/`acknowledged` become false on
every replace).  The sqlite3 connections never execute
`PRAGMA foreign_keys = ON`, so the declared foreign key from
`positions` to `nodes` is NOT enforced (sqlite defaults it off). -/

/-- A row of the `nodes` table (columns at lines 276-288). -/
structure NodeRow where
  node_id : String
  callsign : String
  unit : String
  rank : String
  role : String
  clearance_level : Int
  pubkey : String
  verify_key : String
  last_seen : Int
  status : String
  created : Int
deriving Repr, DecidableEq

/-- A row of the `messages` table (columns at lines 303-318): the
message fields plus the two defaulted flags. -/
structure MessageRow where
  msg_id : String
  msg_type : String
  topic : String
  sender : String
  recipients : List String
  classification : String
  priority : Nat
  timestamp : Int
  expires : Option Int
  payload : PayloadData
  attachments : List String
  signature : Option SigTok
  delivered : Bool
  acknowledged : Bool
deriving Repr, DecidableEq

/-- The database state: the four tables the claims touch. -/
structure DB where
  nodes : List NodeRow
  positions : List Position
  messages : List MessageRow
  geofences : List GeofenceZone
deriving Repr, DecidableEq

/-- Model of `TacticalDatabase.upsert_node` (lines 348-356): INSERT OR REPLACE on
the `node_id` primary key; `last_seen` is set to `time.time()` (passed
here as `now`), and `status` — absent from the column list — reverts to
its default `ACTIVE` whenever an existing row is replaced. -/
def upsert_node (db : DB) (node : NodeIdentity) (now : Int) : DB :=
  let row : NodeRow :=
    { node_id := node.node_id, callsign := node.callsign, unit := node.unit
      rank := node.rank, role := node.role
      clearance_level := node.clearance_level, pubkey := node.pubkey
      verify_key := node.verify_key, last_seen := now, status := "ACTIVE"
      created := node.created }
  { db with nodes :=
      db.nodes.filter (fun n => !(n.node_id == node.node_id)) ++ [row] }

/-- Model of `TacticalDatabase.upsert_position` (lines 358-366): INSERT OR
REPLACE on the `node_id` primary key.  The foreign key to `nodes` is
declared in the schema but never enabled on the connection, so the
statement succeeds whether or not a node row exists. -/
def upsert_position (db : DB) (position : Position) : DB :=
  { db with positions :=
      db.positions.filter (fun p => !(p.node_id == position.node_id))
        ++ [position] }

/-- The row `store_message` writes for a message: every message column,
with `delivered` and `acknowledged` at their declared defaults. -/
def msgRowOf (m : TacticalMessage) : MessageRow :=
  { msg_id := m.msg_id, msg_type := m.msg_type, topic := m.topic
    sender := m.sender, recipients := m.recipients
    classification := m.classification, priority := m.priority
    timestamp := m.timestamp, expires := m.expires, payload := m.payload
    attachments := m.attachments, signature := m.signature
    delivered := false, acknowledged := false }

/-- Model of `TacticalDatabase.store_message` (lines 368-379): INSERT OR REPLACE
on the `msg_id` primary key alone — there is no `(sender, msg_id)` key
and no duplicate check; a conflicting row is deleted and the new one
inserted. -/
def store_message (db : DB) (message : TacticalMessage) : DB :=
  { db with messages :=
      db.messages.filter (fun r => !(r.msg_id == message.msg_id))
        ++ [msgRowOf message] }

/-- Insertion step for `ORDER BY timestamp DESC`. -/
def insertByTsDesc (p : Position) : List Position → List Position
  | [] => [p]
  | q :: rest =>
    if q.timestamp ≤ p.timestamp then p :: q :: rest
    else q :: insertByTsDesc p rest

/-- Model of `ORDER BY p.timestamp DESC` over the SQL result set, modelled as an
insertion sort into descending timestamp order. -/
def sortByTsDesc : List Position → List Position
  | [] => []
  | p :: rest => insertByTsDesc p (sortByTsDesc rest)

/-- Model of `TacticalDatabase.get_current_positions` (lines 395-407): positions
with `timestamp > now - max_age_seconds`, inner-joined to a node row
with `status = ACTIVE`, newest first. -/
def get_current_positions (db : DB) (now : Int)
    (max_age_seconds : Int) : List Position :=
  let cutoff := now - max_age_seconds
  sortByTsDesc (db.positions.filter (fun p =>
    decide (cutoff < p.timestamp) &&
    db.nodes.any (fun n => n.node_id == p.node_id && n.status == "ACTIVE")))

/-- First node row for a node_id, and its recorded verify key (what the
TOFU claim calls "the verify key recorded in that row"). -/
def storedVerifyKey (db : DB) (nid : String) : Option String :=
  (db.nodes.find? (fun n => n.node_id == nid)).map (fun n => n.verify_key)

/-- The stored position row for a node_id. -/
def storedPosition (db : DB) (nid : String) : Option Position :=
  db.positions.find? (fun p => p.node_id == nid)

/-! ## Envelope codec (`_encode_message` / `_decode_message`, 628-690)

`json.dumps(..., separators=(',', ':'))` over Python dicts preserves
insertion order and produces the concatenation below.  String escaping
is the identity here (field values in the claims contain no characters
JSON escapes); braces are spelled with their escapes only because of
the host string syntax. -/

def lb : String := "\x7b"

def rb : String := "\x7d"

/-- A JSON string literal. -/
def serStr (s : String) : String := "\"" ++ s ++ "\""

/-- A JSON array of string literals. -/
def serStrList (l : List String) : String :=
  "[" ++ String.intercalate "," (l.map serStr) ++ "]"

/-- Rendering of the optional `expires` field: null or a number. -/
def serOptInt : Option Int → String
  | none => "null"
  | some i => toString i

/-- Serialization of a payload dictionary. -/
def serPayload : PayloadData → String
  | .textPayload s => lb ++ "\"text\":" ++ serStr s ++ rb
  | .positionPayload p =>
    lb ++ "\"node_id\":" ++ serStr p.node_id
       ++ ",\"lat\":" ++ toString p.lat ++ ",\"lon\":" ++ toString p.lon
       ++ ",\"alt\":" ++ toString p.alt
       ++ ",\"accuracy\":" ++ toString p.accuracy
       ++ ",\"speed\":" ++ toString p.speed
       ++ ",\"course\":" ++ toString p.course
       ++ ",\"timestamp\":" ++ toString p.timestamp
       ++ ",\"mgrs\":" ++ serStr p.mgrs ++ rb

/-- Serialization of `asdict(identity)` (field order of the dataclass). -/
def serIdentity (i : NodeIdentity) : String :=
  lb ++ "\"node_id\":" ++ serStr i.node_id
     ++ ",\"callsign\":" ++ serStr i.callsign
     ++ ",\"unit\":" ++ serStr i.unit
     ++ ",\"rank\":" ++ serStr i.rank
     ++ ",\"role\":" ++ serStr i.role
     ++ ",\"clearance_level\":" ++ toString i.clearance_level
     ++ ",\"pubkey\":" ++ serStr i.pubkey
     ++ ",\"verify_key\":" ++ serStr i.verify_key
     ++ ",\"created\":" ++ toString i.created ++ rb

/-- Rendering of a signature value on the wire (base64 text in the
source; any injective rendering serves the model). -/
def serSigTok (s : SigTok) : String :=
  serStr ("sig(" ++ s.signerKey ++ "/" ++ s.signedData ++ ")")

/-- The signature field value: `None` serializes as `null`. -/
def serOptSig : Option SigTok → String
  | none => "null"
  | some s => serSigTok s

/-- All message fields BEFORE `signature`, in dataclass order — shared
verbatim by both serializations below. -/
def serMessageFields (m : TacticalMessage) : String :=
  "\"msg_id\":" ++ serStr m.msg_id
    ++ ",\"msg_type\":" ++ serStr m.msg_type
    ++ ",\"topic\":" ++ serStr m.topic
    ++ ",\"sender\":" ++ serStr m.sender
    ++ ",\"recipients\":" ++ serStrList m.recipients
    ++ ",\"classification\":" ++ serStr m.classification
    ++ ",\"priority\":" ++ toString m.priority
    ++ ",\"timestamp\":" ++ toString m.timestamp
    ++ ",\"expires\":" ++ serOptInt m.expires
    ++ ",\"payload\":" ++ serPayload m.payload
    ++ ",\"attachments\":" ++ serStrList m.attachments

/-- Model of `json.dumps(asdict(message))`: the signature key is present (with
`null` when the field is `None`). -/
def serMessage (m : TacticalMessage) : String :=
  lb ++ serMessageFields m ++ ",\"signature\":" ++ serOptSig m.signature ++ rb

/-- Model of `json.dumps(message_copy)` on the receiver, where
`message_copy.pop("signature", None)` has REMOVED the key: the
remaining keys in unchanged order, with no signature key at all. -/
def serMessageNoSigKey (m : TacticalMessage) : String :=
  lb ++ serMessageFields m ++ rb

/-- Model of `json.dumps(envelope, separators=(',', ':'))` for the three-key
envelope, abstracted over the message rendering. -/
def serEnvelope (version : String) (ident : NodeIdentity)
    (msgSer : String) : String :=
  lb ++ "\"version\":" ++ serStr version
     ++ ",\"sender_identity\":" ++ serIdentity ident
     ++ ",\"message\":" ++ msgSer ++ rb

/-- The parsed on-wire frame.  `json.loads` of the canonical
serialization recovers exactly these components, so the frame is
carried structurally and the parse step is the identity. -/
structure Envelope where
  version : String
  sender_identity : NodeIdentity
  message : TacticalMessage
deriving Repr, DecidableEq

/-- Model of `TactiMeshNode._encode_message` (lines 628-650): serialize the
envelope as built (the outgoing message's `signature` field is `None`,
so the signed bytes contain `"signature":null`), sign those bytes, then
place the signature into `message.signature` for transmission. -/
def encode_message (identity : NodeIdentity) (signingKey : String)
    (message : TacticalMessage) : Envelope :=
  let data := serEnvelope "1.0" identity (serMessage message)
  let signature := sign_message signingKey data
  { version := "1.0", sender_identity := identity
    message := { message with signature := some signature } }

/-- Model of `TactiMeshNode._decode_message` (lines 652-690): reject unsigned
frames; rebuild the signing input from a copy of the message dict with
the `signature` KEY POPPED; verify against the verify key carried in
the frame itself; on success upsert the sender identity (trusting the
frame) and return the message (signature field still set) with the
sender identity.  Any failure returns `none` and leaves the store
untouched. -/
def decode_message (db : DB) (now : Int) (env : Envelope) :
    Option (TacticalMessage × NodeIdentity) × DB :=
  match env.message.signature with
  | none => (none, db)
  | some sig =>
    let verify_data :=
      serEnvelope env.version env.sender_identity
        (serMessageNoSigKey env.message)
    if ed25519Verify verify_data sig env.sender_identity.verify_key then
      (some (env.message, env.sender_identity),
       upsert_node db env.sender_identity now)
    else (none, db)

/-- A frame signed the way `_decode_message` checks it — over the
serialization WITHOUT the signature key — i.e. a frame a conforming
peer (per the spec's canonical-encoding contract) would emit. -/
def mkSignedFrame (ident : NodeIdentity) (signingKey : String)
    (m : TacticalMessage) : Envelope :=
  let vdata := serEnvelope "1.0" ident (serMessageNoSigKey m)
  { version := "1.0", sender_identity := ident
    message := { m with signature := some (sign_message signingKey vdata) } }

/-! ## Outbound queue (`asyncio.PriorityQueue`, `send_message`,
`transmit_loop`; lines 584, 692-720, 764-791)

`outbox.put((priority, message))` pushes onto a binary heap via
`heapq.heappush`, comparing entries as Python tuples: first the
priorities; on a tie the `TacticalMessage` objects themselves, which
define no ordering — that comparison raises `TypeError`.  Comparison is
therefore an `Except` computation. -/

/-- One queue entry, exactly `(priority, message)`. -/
def QEntry := Nat × TacticalMessage
deriving instance Repr, DecidableEq for QEntry

/-- Python `<` on `(priority, message)` tuples: compares the priorities;
on equality falls through to `message1 < message2`, which raises
`TypeError` (dataclasses without `order=True` are unorderable). -/
def entryLt (a b : QEntry) : Except String Bool :=
  if a.1 < b.1 then .ok true
  else if b.1 < a.1 then .ok false
  else .error "TypeError: unorderable TacticalMessage"

/-- Model of `heapq._siftdown(heap, startpos, pos)` with `newitem = heap[pos]`:
walk up from `pos`, moving each greater parent down, until the parent
is not greater; place `newitem` at the final position.  Each `<` may
raise.  The first argument is structural-recursion fuel: every step
moves `pos` to `(pos - 1) / 2 < pos`, so a fuel equal to the starting
`pos` is never exhausted and the fuel-out branch is unreachable. -/
def siftdownAux (startpos : Nat) (newitem : QEntry) :
    Nat → List QEntry → Nat → Except String (List QEntry)
  | 0, heap, pos => .ok (heap.set pos newitem)
  | fuel + 1, heap, pos =>
    if startpos < pos then
      let parentpos := (pos - 1) / 2
      match heap[parentpos]? with
      | none => .ok (heap.set pos newitem)
      | some parent => do
        let lt ← entryLt newitem parent
        if lt then siftdownAux startpos newitem fuel (heap.set pos parent) parentpos
        else .ok (heap.set pos newitem)
    else .ok (heap.set pos newitem)

/-- Entry point of `heapq._siftdown`. -/
def siftdown (heap : List QEntry) (startpos pos : Nat)
    (newitem : QEntry) : Except String (List QEntry) :=
  siftdownAux startpos newitem pos heap pos

/-- Model of `heapq.heappush`: append, then sift the new item up from the last
position. -/
def heappush (heap : List QEntry) (item : QEntry) :
    Except String (List QEntry) :=
  siftdown (heap ++ [item]) 0 heap.length item

/-- In-process node state touched by the verified paths: the store, the
outbound queue, and an environment flag standing for the persistence
layer raising (the spec's `StoreError`). -/
structure NodeState where
  db : DB
  storeFails : Bool
  outbox : List QEntry
deriving Repr, DecidableEq

/-- Model of `TactiMeshNode.send_message` (lines 692-720).  Builds the
`TacticalMessage` (fresh `msg_id` and `timestamp = time.time()` arrive
as parameters; `msg_type="DATA"`, `expires=None`, no attachments, no
signature), then — inside one `try` — stores it and puts
`(priority, message)` on the outbox.  Any exception is caught and
logged: a store failure aborts before the enqueue; a failed enqueue
(tuple comparison `TypeError`) loses the message after the store
already committed. -/
def send_message (st : NodeState) (msg_id : String) (now : Int)
    (topic : String) (payload : PayloadData) (recipients : List String)
    (priority : Nat) (classification : String) : NodeState :=
  let message : TacticalMessage :=
    { msg_id := msg_id, msg_type := "DATA", topic := topic
      sender := "self", recipients := recipients
      classification := classification, priority := priority
      timestamp := now, expires := none, payload := payload
      attachments := [], signature := none }
  if st.storeFails then st
  else
    let db' := store_message st.db message
    match heappush st.outbox (priority, message) with
    | .error _ => { st with db := db' }
    | .ok ob => { st with db := db', outbox := ob }

/-- Model of `TactiMeshNode._process_received_message` (lines 823-843): on topic
`blue_force`, build `Position(**payload)` and upsert it — with no
timestamp comparison; a payload without the `Position` fields raises,
is caught, and leaves the store unchanged.  Other topics only log or
fan out to web clients. -/
def process_received_message (db : DB) (message : TacticalMessage) : DB :=
  if message.topic == "blue_force" then
    match Position.ofPayload message.payload with
    | some position => upsert_position db position
    | none => db
  else db

/-! ## Situational engine (`check_geofence_violations`, lines 972-1005)

The point is `Point(position.lon, position.lat)`; each active zone's
WKT ring is parsed and tested with shapely's `polygon.contains(point)`,
which holds exactly when the point lies in the polygon's INTERIOR —
boundary points are not contained.  For a simple ring that is: an odd
ray-cast crossing count, and not on any edge. -/

/-- Cross product `(b - a) × (p - a)`; zero iff the three points are
collinear. -/
def cross2 (a b p : Rat × Rat) : Rat :=
  (b.1 - a.1) * (p.2 - a.2) - (b.2 - a.2) * (p.1 - a.1)

/-- Point `p` lies on the closed segment `a`-`b`. -/
def onSegment (p a b : Rat × Rat) : Bool :=
  cross2 a b p == 0 &&
  min a.1 b.1 ≤ p.1 && p.1 ≤ max a.1 b.1 &&
  min a.2 b.2 ≤ p.2 && p.2 ≤ max a.2 b.2

/-- Consecutive vertex pairs of a ring (the WKT ring repeats the first
vertex last, so these are exactly its edges). -/
def ringEdges (ring : List (Rat × Rat)) : List ((Rat × Rat) × (Rat × Rat)) :=
  ring.zip ring.tail

/-- True iff `p` lies on the ring's boundary. -/
def onBoundary (p : Rat × Rat) (ring : List (Rat × Rat)) : Bool :=
  (ringEdges ring).any (fun e => onSegment p e.1 e.2)

/-- One edge of the even-odd ray cast: the edge straddles the horizontal
through `p` (one endpoint strictly above, one at-or-below) and the
crossing lies strictly right of `p`; the usual division by
`b.2 - a.2` is written cross-multiplied, with the inequality flipped
when that difference is negative. -/
def edgeCrosses (p a b : Rat × Rat) : Bool :=
  if decide (a.2 ≤ p.2) && decide (p.2 < b.2) then
    decide ((p.1 - a.1) * (b.2 - a.2) < (b.1 - a.1) * (p.2 - a.2))
  else if decide (b.2 ≤ p.2) && decide (p.2 < a.2) then
    decide ((b.1 - a.1) * (p.2 - a.2) < (p.1 - a.1) * (b.2 - a.2))
  else false

/-- Even-odd ray cast over the ring. -/
def raycastOdd (p : Rat × Rat) (ring : List (Rat × Rat)) : Bool :=
  (ringEdges ring).foldl
    (fun acc e => if edgeCrosses p e.1 e.2 then !acc else acc) false

/-- shapely `polygon.contains(point)` for a simple ring: strict interior
membership — boundary points are NOT contained. -/
def polyContains (ring : List (Rat × Rat)) (p : Rat × Rat) : Bool :=
  !(onBoundary p ring) && raycastOdd p ring

/-- One entry of the list `check_geofence_violations` builds (the dict
at lines 995-1000). -/
structure Violation where
  zone_id : String
  name : String
  zone_type : String
  classification : String
deriving Repr, DecidableEq

/-- Model of `SituationalAwareness.check_geofence_violations` (lines 972-1005):
iterate the rows with `active = TRUE` in table order; append a
violation for each whose `zone_type` is HOSTILE or RESTRICTED and whose
polygon `contains` the point. -/
def check_geofence_violations (db : DB) (position : Position) :
    List Violation :=
  let point : Rat × Rat := (position.lon, position.lat)
  (db.geofences.filter (fun z => z.active)).filterMap (fun z =>
    if (z.zone_type == "HOSTILE" || z.zone_type == "RESTRICTED") &&
        polyContains z.polygon point then
      some { zone_id := z.zone_id, name := z.name, zone_type := z.zone_type
             classification := z.classification }
    else none)

/-! ## Helper lemmas -/

/-- Searching for a key in rows from which every match was just filtered
out, followed by a tail, finds only in the tail (the INSERT OR REPLACE
lookup pattern). -/
theorem find?_filter_ne_append {α} (p : α → Bool) (l tail : List α) :
    List.find? p (l.filter (fun x => !(p x)) ++ tail) = List.find? p tail := by
  rw [List.find?_append]
  have h0 : List.find? p (l.filter (fun x => !(p x))) = none := by
    rw [List.find?_eq_none]
    intro x hx
    have hpx := (List.mem_filter.mp hx).2
    simp only [Bool.not_eq_true'] at hpx
    simp [hpx]
  rw [h0, Option.none_or]

/-- Filtering for a key in rows from which every match was just filtered
out, followed by a tail, keeps only the tail's matches. -/
theorem filter_filter_ne_append {α} (p : α → Bool) (l tail : List α) :
    List.filter p (l.filter (fun x => !(p x)) ++ tail) = List.filter p tail := by
  rw [List.filter_append]
  have h0 : List.filter p (l.filter (fun x => !(p x))) = [] := by
    induction l with
    | nil => rfl
    | cons a l ih =>
      by_cases ha : p a = true
      · simp [List.filter, ha, ih]
      · simp only [Bool.not_eq_true] at ha
        simp [List.filter, ha, ih]
  rw [h0, List.nil_append]

/-- Membership is preserved by the descending-timestamp insertion. -/
theorem mem_insertByTsDesc {x p : Position} {l : List Position} :
    x ∈ insertByTsDesc p l ↔ x = p ∨ x ∈ l := by
  induction l with
  | nil => simp [insertByTsDesc]
  | cons q rest ih =>
    rw [insertByTsDesc]
    split
    · simp [List.mem_cons]
    · simp only [List.mem_cons, ih]
      tauto

/-- Membership is preserved by the descending-timestamp sort. -/
theorem mem_sortByTsDesc {x : Position} {l : List Position} :
    x ∈ sortByTsDesc l ↔ x ∈ l := by
  induction l with
  | nil => simp [sortByTsDesc]
  | cons p rest ih => simp [sortByTsDesc, mem_insertByTsDesc, ih]

/-- Inserting into a descending-timestamp list keeps it descending. -/
theorem pairwise_insertByTsDesc (p : Position) (l : List Position)
    (h : l.Pairwise (fun a b => b.timestamp ≤ a.timestamp)) :
    (insertByTsDesc p l).Pairwise (fun a b => b.timestamp ≤ a.timestamp) := by
  induction l with
  | nil => simp [insertByTsDesc]
  | cons q rest ih =>
    rw [List.pairwise_cons] at h
    obtain ⟨hq, hrest⟩ := h
    rw [insertByTsDesc]
    split
    case isTrue hle =>
      refine List.Pairwise.cons ?_ (List.Pairwise.cons hq hrest)
      intro x hx
      rcases List.mem_cons.mp hx with rfl | hx'
      · exact hle
      · exact le_trans (hq x hx') hle
    case isFalse hlt =>
      refine List.Pairwise.cons ?_ (ih hrest)
      intro x hx
      rcases mem_insertByTsDesc.mp hx with rfl | hx'
      · omega
      · exact hq x hx'

/-- The descending-timestamp sort yields a descending list. -/
theorem pairwise_sortByTsDesc (l : List Position) :
    (sortByTsDesc l).Pairwise (fun a b => b.timestamp ≤ a.timestamp) := by
  induction l with
  | nil => simp [sortByTsDesc]
  | cons p rest ih => exact pairwise_insertByTsDesc p _ ih

/-- The verify key recorded after an upsert is the upserted identity's. -/
theorem storedVerifyKey_upsert (db : DB) (ident : NodeIdentity) (now : Int) :
    storedVerifyKey (upsert_node db ident now) ident.node_id =
      some ident.verify_key := by
  rw [storedVerifyKey, upsert_node]
  dsimp only
  rw [find?_filter_ne_append (fun n : NodeRow => n.node_id == ident.node_id)]
  simp [List.find?]

/-- The position row recorded after an upsert is the upserted position. -/
theorem storedPosition_upsert (db : DB) (p : Position) :
    storedPosition (upsert_position db p) p.node_id = some p := by
  rw [storedPosition, upsert_position]
  dsimp only
  rw [find?_filter_ne_append (fun q : Position => q.node_id == p.node_id)]
  simp [List.find?]

/-- Serializing the message with its `None` signature rendered as `null`
is exactly 17 characters longer than serializing it with the signature
key popped. -/
theorem serMessage_length (m : TacticalMessage) (h : m.signature = none) :
    (serMessage m).length = (serMessageNoSigKey m).length + 17 := by
  rw [serMessage, serMessageNoSigKey, h]
  simp only [serOptSig, String.length_append]
  have h1 : (",\"signature\":" : String).length = 13 := rfl
  have h2 : ("null" : String).length = 4 := rfl
  omega

/-- The envelope serialization separates message renderings of distinct
lengths. -/
theorem serEnvelope_ne (v : String) (i : NodeIdentity) {s t : String}
    (h : s.length ≠ t.length) : serEnvelope v i s ≠ serEnvelope v i t := by
  intro he
  apply h
  have hc := congrArg String.length he
  simp only [serEnvelope, String.length_append] at hc
  omega

/-- The decoder's no-signature-key rendering ignores the message's
signature field. -/
theorem serMessageNoSigKey_set_sig (m : TacticalMessage) (s : Option SigTok) :
    serMessageNoSigKey { m with signature := s } = serMessageNoSigKey m := rfl

/-- Membership in the violation list: exactly the active zones of type
HOSTILE or RESTRICTED whose polygon strictly contains the point, each
rendered as the violation dict of lines 995-1000. -/
theorem check_geofence_mem (db : DB) (position : Position) (v : Violation) :
    v ∈ check_geofence_violations db position ↔
      ∃ z ∈ db.geofences, z.active = true ∧
        (z.zone_type = "HOSTILE" ∨ z.zone_type = "RESTRICTED") ∧
        polyContains z.polygon (position.lon, position.lat) = true ∧
        v = { zone_id := z.zone_id, name := z.name, zone_type := z.zone_type
              classification := z.classification } := by
  rw [check_geofence_violations]
  simp only [List.mem_filterMap, List.mem_filter,
    Option.ite_none_right_eq_some, Option.some.injEq, Bool.and_eq_true,
    Bool.or_eq_true, beq_iff_eq]
  constructor
  · rintro ⟨z, ⟨hz, hact⟩, ⟨htype, hcont⟩, hv⟩
    exact ⟨z, hz, hact, htype, hcont, hv.symm⟩
  · rintro ⟨z, hz, hact, htype, hcont, rfl⟩
    exact ⟨z, ⟨hz, hact⟩, ⟨htype, hcont⟩, rfl⟩

/-! ## Concrete fixtures used by counterexamples and witnesses -/

/-- The empty store. -/
def dbEmpty : DB := { nodes := [], positions := [], messages := [], geofences := [] }

/-- A node identity whose verify key matches signing key `skA`. -/
def identAlpha : NodeIdentity :=
  { node_id := "nA", callsign := "ALPHA-1", unit := "1ST PLT", rank := "SGT"
    role := "TEAM_LEADER", clearance_level := 3, pubkey := "pkA"
    verify_key := verifyKeyOf "skA", created := 1 }

/-- An outgoing message exactly as `send_message` builds it: fresh id,
`msg_type = DATA`, no expiry, no attachments, `signature = None`. -/
def msgMove : TacticalMessage :=
  { msg_id := "mid-1", msg_type := "DATA", topic := "command", sender := "nA"
    recipients := [], classification := "UNCLASSIFIED", priority := 2
    timestamp := 10, expires := none, payload := .textPayload "move"
    attachments := [], signature := none }

/-! ## Claim theorems -/

/-- C1.  The round-trip claim fails on the code: `_encode_message` signs
the serialization in which the outgoing message's `None` signature
appears as `"signature":null`, while `_decode_message` rebuilds the
signing input with the signature key popped from the dict, so the two
byte strings always differ (by exactly the 17 bytes of
`,"signature":null`), verification fails, and every frame the node
produces for a `send_message` message is dropped by a receiver — with
no store mutation. -/
theorem encode_then_decode_drops (db : DB) (now : Int) (ident : NodeIdentity)
    (signingKey : String) (m : TacticalMessage) (h : m.signature = none) :
    decode_message db now (encode_message ident signingKey m) = (none, db) := by
  have hlen := serMessage_length m h
  have hne : serEnvelope "1.0" ident (serMessage m) ≠
      serEnvelope "1.0" ident (serMessageNoSigKey m) :=
    serEnvelope_ne "1.0" ident (by omega)
  have hv : ed25519Verify
      (serEnvelope "1.0" ident (serMessageNoSigKey m))
      (sign_message signingKey (serEnvelope "1.0" ident (serMessage m)))
      ident.verify_key = false := by
    rw [ed25519Verify]
    have hb : ((sign_message signingKey
        (serEnvelope "1.0" ident (serMessage m))).signedData ==
        serEnvelope "1.0" ident (serMessageNoSigKey m)) = false :=
      beq_eq_false_iff_ne.mpr hne
    rw [hb, Bool.and_false]
  simp only [encode_message, decode_message, serMessageNoSigKey_set_sig, hv,
    Bool.false_eq_true, if_false]

/-- C1 witness: the drop evaluated at a concrete outgoing message. -/
theorem encode_then_decode_drops_witness :
    decode_message dbEmpty 5 (encode_message identAlpha "skA" msgMove) =
      (none, dbEmpty) :=
  encode_then_decode_drops dbEmpty 5 identAlpha "skA" msgMove rfl

/-- A message from sender A with msg_id X and payload p1. -/
def msgAX1 : TacticalMessage :=
  { msg_id := "X", msg_type := "DATA", topic := "sitrep", sender := "A"
    recipients := [], classification := "UNCLASSIFIED", priority := 2
    timestamp := 20, expires := none, payload := .textPayload "p1"
    attachments := [], signature := none }

/-- A second arrival of the same `(sender, msg_id)` with payload p2. -/
def msgAX2 : TacticalMessage := { msgAX1 with timestamp := 21, payload := .textPayload "p2" }

/-- A message from the DIFFERENT sender B with the same msg_id X. -/
def msgBX : TacticalMessage := { msgAX1 with sender := "B", timestamp := 22, payload := .textPayload "p3" }

/-- C2 counterexample: `store_message` is INSERT OR REPLACE on `msg_id`
alone.  A second arrival of the same `(sender, msg_id)` does not leave
the stored row unchanged — its payload is overwritten — and two
distinct senders with the same msg_id end up with a single row (the
claim requires two). -/
theorem store_message_counterexample :
    ((store_message (store_message dbEmpty msgAX1) msgAX2).messages.map
        (fun r => r.payload) = [.textPayload "p2"]) ∧
    (.textPayload "p2" ≠ msgAX1.payload) ∧
    ((store_message (store_message dbEmpty msgAX1) msgBX).messages.map
        (fun r => (r.sender, r.payload)) = [("B", .textPayload "p3")]) := by
  refine ⟨rfl, by decide, rfl⟩

/-- C2 amended: `store_message` inserts or replaces keyed on `msg_id`
alone — after any call the store holds exactly one message row with
that `msg_id`, namely the new message's row (flags reset to their
defaults), regardless of sender; a second arrival with the same
`msg_id` therefore overwrites rather than being ignored, and two
distinct senders cannot both keep a message with the same `msg_id`. -/
theorem store_message_replaces_by_msg_id (db : DB) (m : TacticalMessage) :
    (store_message db m).messages.filter (fun r => r.msg_id == m.msg_id) =
      [msgRowOf m] := by
  rw [store_message]
  dsimp only
  rw [filter_filter_ne_append (fun r : MessageRow => r.msg_id == m.msg_id)]
  simp [List.filter, msgRowOf]

/-- A node row pinned in the store with the verify key of `sk1`. -/
def nodeRowN1 : NodeRow :=
  { node_id := "n1", callsign := "BRAVO-2", unit := "2ND PLT", rank := "E-4"
    role := "OPERATOR", clearance_level := 3, pubkey := "pk1"
    verify_key := verifyKeyOf "sk1", last_seen := 0, status := "ACTIVE"
    created := 0 }

/-- A store already holding `nodeRowN1`. -/
def dbPinned : DB :=
  { nodes := [nodeRowN1], positions := [], messages := [], geofences := [] }

/-- The SAME node_id re-announced with a different key pair (`sk2`). -/
def identRekey : NodeIdentity :=
  { node_id := "n1", callsign := "BRAVO-2", unit := "2ND PLT", rank := "E-4"
    role := "OPERATOR", clearance_level := 3, pubkey := "pk2"
    verify_key := verifyKeyOf "sk2", created := 4 }

/-- A message carried by the rekeying frame. -/
def msgRekey : TacticalMessage :=
  { msg_id := "mid-7", msg_type := "DATA", topic := "command", sender := "n1"
    recipients := [], classification := "UNCLASSIFIED", priority := 2
    timestamp := 30, expires := none, payload := .textPayload "hold"
    attachments := [], signature := none }

/-- A frame for node `n1` self-consistently signed with the NEW key. -/
def frameRekey : Envelope := mkSignedFrame identRekey "sk2" msgRekey

set_option maxRecDepth 8192 in
/-- C3 counterexample: the store has `n1` pinned with the verify key of
`sk1`; an inbound frame advertises a different verify key (of `sk2`)
for `n1` and is signed consistently with it.  `_decode_message` accepts
the frame (it verifies only against the key carried in the frame) and
replaces the stored verify key — the claim requires the frame dropped
and the key immutable. -/
theorem tofu_pinning_counterexample :
    storedVerifyKey dbPinned "n1" = some (verifyKeyOf "sk1") ∧
    frameRekey.sender_identity.verify_key ≠ verifyKeyOf "sk1" ∧
    (decode_message dbPinned 9 frameRekey).1.isSome = true ∧
    storedVerifyKey (decode_message dbPinned 9 frameRekey).2 "n1" =
      some (verifyKeyOf "sk2") := by
  refine ⟨rfl, by decide, ?_, ?_⟩ <;> decide

/-- C3 amended: `_decode_message` checks the signature only against the
verify key the frame itself advertises and then unconditionally upserts
the sender identity, so a frame whose verify key differs from the
stored one is accepted whenever it is self-consistent, and the stored
verify key for that node_id is replaced by the frame's. -/
theorem decode_accepts_and_rekeys (db : DB) (now : Int)
    (ident : NodeIdentity) (sk : String) (m : TacticalMessage)
    (h : ident.verify_key = verifyKeyOf sk) :
    (decode_message db now (mkSignedFrame ident sk m)).1 =
      some ({ m with signature := some (sign_message sk
        (serEnvelope "1.0" ident (serMessageNoSigKey m))) }, ident) ∧
    storedVerifyKey (decode_message db now (mkSignedFrame ident sk m)).2
      ident.node_id = some ident.verify_key := by
  have hv : ed25519Verify
      (serEnvelope "1.0" ident (serMessageNoSigKey m))
      (sign_message sk (serEnvelope "1.0" ident (serMessageNoSigKey m)))
      ident.verify_key = true := by
    rw [ed25519Verify, h]
    simp [sign_message]
  constructor
  · simp only [mkSignedFrame, decode_message, serMessageNoSigKey_set_sig, hv,
      if_true]
  · simp only [mkSignedFrame, decode_message, serMessageNoSigKey_set_sig, hv,
      if_true]
    exact storedVerifyKey_upsert db ident now

/-- C3 amended witness: acceptance and rekey at the concrete frame. -/
theorem decode_accepts_and_rekeys_witness :
    (decode_message dbPinned 9 frameRekey).1 =
      some ({ msgRekey with signature := some (sign_message "sk2"
        (serEnvelope "1.0" identRekey (serMessageNoSigKey msgRekey))) },
        identRekey) ∧
    storedVerifyKey (decode_message dbPinned 9 frameRekey).2
      identRekey.node_id = some identRekey.verify_key :=
  decode_accepts_and_rekeys dbPinned 9 identRekey "sk2" msgRekey rfl

/-- A fresh node runtime state over the empty store. -/
def stFresh : NodeState := { db := dbEmpty, storeFails := false, outbox := [] }

/-- The state after one `send_message` with priority 2. -/
def stOne : NodeState :=
  send_message stFresh "id1" 10 "command" (.textPayload "a") [] 2 "UNCLASSIFIED"

/-- C4.  The FIFO-within-priority claim fails on the code: the outbox is
an `asyncio.PriorityQueue` of `(priority, message)` tuples, and pushing
a second entry with an equal priority compares the two
`TacticalMessage` objects, which raises `TypeError`; `send_message`'s
catch-all swallows it after the store already committed, so the second
message is stored but never enqueued — instead of being transmitted
after the first. -/
theorem equal_priority_enqueue_drops :
    (heappush stOne.outbox
        (2, { msgMove with msg_id := "id2" }) =
      .error "TypeError: unorderable TacticalMessage") ∧
    ((send_message stOne "id2" 11 "command" (.textPayload "b") [] 2
        "UNCLASSIFIED").outbox.map (fun e => e.2.msg_id) = ["id1"]) ∧
    ((send_message stOne "id2" 11 "command" (.textPayload "b") [] 2
        "UNCLASSIFIED").db.messages.map (fun r => r.msg_id) = ["id1", "id2"]) := by
  refine ⟨rfl, rfl, rfl⟩

/-- The position stored for `n1` at timestamp 100. -/
def posN1at100 : Position :=
  { node_id := "n1", lat := 37, lon := -122, alt := 50, accuracy := 10
    speed := 0, course := 0, timestamp := 100, mgrs := "10S" }

/-- An OLDER position for the same node, timestamp 99. -/
def posN1at99 : Position :=
  { node_id := "n1", lat := 38, lon := -121, alt := 51, accuracy := 10
    speed := 1, course := 90, timestamp := 99, mgrs := "10S" }

/-- A store already holding the newer position for `n1`. -/
def dbWithPos : DB :=
  { nodes := [nodeRowN1], positions := [posN1at100], messages := []
    geofences := [] }

/-- An inbound blue_force message carrying the older position. -/
def msgStalePos : TacticalMessage :=
  { msg_id := "mid-9", msg_type := "DATA", topic := "blue_force"
    sender := "n1", recipients := [], classification := "UNCLASSIFIED"
    priority := 2, timestamp := 99, expires := none
    payload := .positionPayload posN1at99, attachments := [], signature := none }

/-- C5 counterexample: the store holds `n1` at timestamp 100; an inbound
blue_force position with timestamp 99 ≤ 100 is NOT dropped —
`_process_received_message` upserts it unconditionally and the stored
row becomes the older position, where the claim requires the row
unchanged. -/
theorem position_monotonicity_counterexample :
    storedPosition dbWithPos "n1" = some posN1at100 ∧
    posN1at99.timestamp ≤ posN1at100.timestamp ∧
    storedPosition (process_received_message dbWithPos msgStalePos) "n1" =
      some posN1at99 := by
  refine ⟨rfl, by decide, rfl⟩

/-- C5 amended: an inbound blue_force message whose payload parses as a
`Position` unconditionally replaces the stored row for its node_id —
there is no timestamp comparison, so the store holds the most recently
RECEIVED position, not the one with the maximal timestamp. -/
theorem process_blue_force_overwrites (db : DB) (m : TacticalMessage)
    (p : Position) (ht : m.topic = "blue_force")
    (hp : m.payload = .positionPayload p) :
    storedPosition (process_received_message db m) p.node_id = some p := by
  rw [process_received_message, ht, hp]
  simp only [beq_self_eq_true, if_true, Position.ofPayload]
  exact storedPosition_upsert db p

/-- C5 amended witness: the overwrite at the concrete stale message. -/
theorem process_blue_force_overwrites_witness :
    storedPosition (process_received_message dbWithPos msgStalePos)
      posN1at99.node_id = some posN1at99 :=
  process_blue_force_overwrites dbWithPos msgStalePos posN1at99 rfl rfl

/-- The ring of the spec's square zone `[(0,0),(0,10),(10,10),(10,0),(0,0)]`. -/
def ringZ : List (Rat × Rat) := [(0, 0), (0, 10), (10, 10), (10, 0), (0, 0)]

/-- The HOSTILE square zone Z, active. -/
def zoneZ : GeofenceZone :=
  { zone_id := "Z", name := "Zone Z", zone_type := "HOSTILE"
    polygon := ringZ, classification := "SECRET", created_by := "nA"
    created := 0, active := true }

/-- A store holding only zone Z. -/
def dbZone : DB :=
  { nodes := [], positions := [], messages := [], geofences := [zoneZ] }

/-- The violation record the code builds for zone Z. -/
def vioZ : Violation :=
  { zone_id := "Z", name := "Zone Z", zone_type := "HOSTILE"
    classification := "SECRET" }

/-- Position (lat=5, lon=5), strictly inside the square. -/
def pos55 : Position :=
  { node_id := "nA", lat := 5, lon := 5, alt := 0, accuracy := 10
    speed := 0, course := 0, timestamp := 0, mgrs := "" }

/-- Position (lat=11, lon=11), outside the square. -/
def pos1111 : Position := { pos55 with lat := 11, lon := 11 }

/-- Position (lat=5, lon=0), ON the square's left edge. -/
def posEdge : Position := { pos55 with lat := 5, lon := 0 }

unseal Rat.add Rat.sub Rat.mul Rat.inv

/-- C6 counterexample: the claim treats a point coinciding with a
polygon edge as inside, but the code uses shapely `contains`, which
excludes the boundary — at (lat=5, lon=0), a point on Z's edge, the
active HOSTILE zone is NOT reported. -/
theorem geofence_edge_counterexample :
    onBoundary (posEdge.lon, posEdge.lat) zoneZ.polygon = true ∧
    zoneZ.active = true ∧ zoneZ.zone_type = "HOSTILE" ∧
    check_geofence_violations dbZone posEdge = [] := by
  refine ⟨by decide, rfl, rfl, rfl⟩

/-- C6 amended: `geofence_violations(position)` returns exactly the
active zones whose zone_type is HOSTILE or RESTRICTED and whose polygon
STRICTLY contains the point — a point coinciding with an edge counts as
outside (shapely `contains` excludes the boundary); for the square
HOSTILE zone Z, (lat=5, lon=5) yields [Z] and (lat=11, lon=11) yields
[]. -/
theorem check_geofence_violations_spec :
    check_geofence_violations dbZone pos55 = [vioZ] ∧
    check_geofence_violations dbZone pos1111 = [] ∧
    ∀ (db : DB) (position : Position) (v : Violation),
      v ∈ check_geofence_violations db position ↔
        ∃ z ∈ db.geofences, z.active = true ∧
          (z.zone_type = "HOSTILE" ∨ z.zone_type = "RESTRICTED") ∧
          polyContains z.polygon (position.lon, position.lat) = true ∧
          v = { zone_id := z.zone_id, name := z.name
                zone_type := z.zone_type
                classification := z.classification } := by
  exact ⟨by decide, rfl, check_geofence_mem⟩

/-- C7.  The reject-orphan-positions claim fails on the code: the
`positions → nodes` foreign key is declared in the schema, but the
sqlite3 connections never run `PRAGMA foreign_keys = ON` (it is off by
default), so `upsert_position` happily stores a position whose node_id
has no node row — here into a completely empty store. -/
theorem upsert_position_orphan :
    dbEmpty.nodes = [] ∧
    (upsert_position dbEmpty posN1at100).positions = [posN1at100] := by
  exact ⟨rfl, rfl⟩

/-- A runtime state whose persistence layer is failing (StoreError). -/
def stStoreDown : NodeState := { db := dbEmpty, storeFails := true, outbox := [] }

/-- C8 counterexample: with the store failing, `send_message` catches
the exception inside its single try/except and returns — the message is
never enqueued (and never transmitted), where the claim requires it to
be enqueued and transmitted regardless. -/
theorem send_message_store_failure_counterexample :
    stStoreDown.storeFails = true ∧
    (send_message stStoreDown "idX" 5 "command" (.textPayload "x") [] 2
        "UNCLASSIFIED").outbox = [] ∧
    (send_message stStoreDown "idX" 5 "command" (.textPayload "x") [] 2
        "UNCLASSIFIED").db.messages = [] := by
  exact ⟨rfl, rfl, rfl⟩

/-- C8 amended: `send_message` wraps the store write and the enqueue in
one try/except, so a persistence failure while storing the outgoing
message is logged and aborts the call BEFORE the enqueue — the message
is neither stored, nor enqueued, nor transmitted. -/
theorem send_message_store_failure_aborts (st : NodeState) (msg_id : String)
    (now : Int) (topic : String) (payload : PayloadData)
    (recipients : List String) (priority : Nat) (classification : String)
    (h : st.storeFails = true) :
    send_message st msg_id now topic payload recipients priority
      classification = st := by
  rw [send_message, h]
  simp

/-- C8 amended witness: the abort at the concrete failing store. -/
theorem send_message_store_failure_aborts_witness :
    send_message stStoreDown "idY" 6 "alert" (.textPayload "y") [] 1
      "SECRET" = stStoreDown :=
  send_message_store_failure_aborts stStoreDown "idY" 6 "alert"
    (.textPayload "y") [] 1 "SECRET" rfl

/-- C9.  `verify_signature` is total: the catch-all except maps every
raise in the body — malformed base64, a key of the wrong length, a bad
signature — to `False`, and an `ok` body result is returned as is, so
the call yields `true` exactly when the body verifies cleanly and
`false` in every other case, never propagating an exception. -/
theorem verify_signature_total (data signature public_key : String) :
    (verify_signature data signature public_key = true ↔
      verifySignatureBody data signature public_key = .ok true) ∧
    (∀ e, verifySignatureBody data signature public_key = .error e →
      verify_signature data signature public_key = false) := by
  constructor
  · rw [verify_signature]
    cases hb : verifySignatureBody data signature public_key with
    | ok b => cases b <;> simp
    | error e => simp
  · intro e he
    rw [verify_signature, he]

/-- C9 witness: a non-base64, wrong-length key yields `false` through
the error branch. -/
theorem verify_signature_total_witness :
    verify_signature "msg" "sig0" "***" = false :=
  (verify_signature_total "msg" "sig0" "***").2
    "ValueError: key must be 32 bytes" rfl

/-- C10.  Every row `get_current_positions` returns has timestamp
strictly greater than `now - max_age_seconds`, joins an ACTIVE node row
(orphan positions are never returned), and the list is ordered
newest-first by timestamp. -/
theorem get_current_positions_guard (db : DB) (now max_age_seconds : Int) :
    (∀ p ∈ get_current_positions db now max_age_seconds,
        now - max_age_seconds < p.timestamp ∧
        ∃ n ∈ db.nodes, n.node_id = p.node_id ∧ n.status = "ACTIVE") ∧
    (get_current_positions db now max_age_seconds).Pairwise
      (fun a b => b.timestamp ≤ a.timestamp) := by
  constructor
  · intro p hp
    rw [get_current_positions] at hp
    have hp2 := List.mem_filter.mp (mem_sortByTsDesc.mp hp)
    obtain ⟨-, hcond⟩ := hp2
    rw [Bool.and_eq_true] at hcond
    obtain ⟨h1, h2⟩ := hcond
    refine ⟨of_decide_eq_true h1, ?_⟩
    rw [List.any_eq_true] at h2
    obtain ⟨n, hn, hpred⟩ := h2
    rw [Bool.and_eq_true] at hpred
    exact ⟨n, hn, by simpa using hpred.1, by simpa using hpred.2⟩
  · exact pairwise_sortByTsDesc _

/-- A store with one ACTIVE node and its position, for the C10 witness. -/
def dbActive : DB :=
  { nodes := [nodeRowN1], positions := [posN1at100], messages := []
    geofences := [] }

/-- C10 witness: the guard evaluated at the concrete store, with the
membership hypothesis discharged by computation. -/
theorem get_current_positions_guard_witness :
    (95 : Int) - 300 < posN1at100.timestamp ∧
    ∃ n ∈ dbActive.nodes, n.node_id = posN1at100.node_id ∧
      n.status = "ACTIVE" :=
  (get_current_positions_guard dbActive 95 300).1 posN1at100 (by decide)
